import Mathlib

/-!
Verification of the Home Supply Manager integration's product repository
(`custom_components/home_supply_manager/coordinator.py`) and its adapters
(`button.py`, `const.py`, `config_flow.py`, `sensor.py`).

The coordinator keeps `self._products : dict[str, dict[str, Any]]`.  We embed
Python values stored in a product record as `Value`, Python dicts as
insertion-ordered association lists, and the mutation verbs as functions from
the products mapping to an optional result (a `Option.none` result models an
uncaught Python exception) paired with the list of log records the call emits.
-/

set_option autoImplicit false

namespace SupplyManager


/-- A Python value as it can appear in a stored product record:
an `int`, a `str`, a `bool`, or `None`. -/
inductive Value where
  | vint (n : Int)
  | vstr (s : String)
  | vbool (b : Bool)
  | vnone
deriving DecidableEq

/-- A Python dict with `String` keys, as an insertion-ordered association
list (Python dicts never hold a duplicate key; lookups read the first
binding, writes overwrite the first binding in place or append). -/
abbrev Dict (α : Type) : Type := List (String × α)

/-- Python `d.get(k)` / `d[k]`: value of the first binding of `k`, if any. -/
def dget? {α : Type} : Dict α → String → Option α
  | [], _ => Option.none
  | (k', v) :: rest, k => if k' = k then some v else dget? rest k

/-- Python `d.get(k, v₀)`: lookup with a default. -/
def dgetD {α : Type} (d : Dict α) (k : String) (v₀ : α) : α :=
  (dget? d k).getD v₀

/-- Python `k in d`. -/
def dcontains {α : Type} (d : Dict α) (k : String) : Bool :=
  (dget? d k).isSome

/-- Python `d[k] = v`: overwrite the first binding of `k`, or append a new one. -/
def dset {α : Type} : Dict α → String → α → Dict α
  | [], k, v => [(k, v)]
  | (k', v') :: rest, k, v =>
      if k' = k then (k', v) :: rest else (k', v') :: dset rest k v

/-- Python `d.update(u)`: assign every binding of `u` into `d`, in order. -/
def dupdate {α : Type} (d u : Dict α) : Dict α :=
  u.foldl (fun acc kv => dset acc kv.1 kv.2) d

/-- Python `del d[k]`: drop the first binding of `k`. -/
def derase {α : Type} : Dict α → String → Dict α
  | [], _ => []
  | (k', v') :: rest, k =>
      if k' = k then rest else (k', v') :: derase rest k

/-- A product record (`dict[str, Any]`). -/
abbrev Record : Type := Dict Value

/-- The coordinator's `self._products` mapping. -/
abbrev Products : Type := Dict Record

/-- A record emitted through `_LOGGER` during one call. -/
inductive Log where
  | logError (msg : String)
  | logWarning (msg : String)
  | logInfo (msg : String)
deriving DecidableEq

/-! ### Calendar dates

`replace_item` stores `datetime.now().date().isoformat()` and
`calculate_days_until_replacement` parses the stored string back with
`datetime.fromisoformat(...).date()`.  We model a calendar date by its
year/month/day and convert to Python's proleptic-Gregorian ordinal
(`date.toordinal`, day 1 = 0001-01-01) for the day arithmetic. -/

/-- A calendar date (no time component), as `datetime.date`. -/
structure Date where
  year : Nat
  month : Nat
  day : Nat
deriving DecidableEq

/-- Left-pad the decimal form of `n` with zeros to `width` digits. -/
def padNum (n width : Nat) : String :=
  let s := toString n
  if width ≤ s.length then s
  else String.mk (List.replicate (width - s.length) '0') ++ s

/-- Python `date.isoformat()`: `YYYY-MM-DD`. -/
def Date.isoformat (d : Date) : String :=
  padNum d.year 4 ++ "-" ++ padNum d.month 2 ++ "-" ++ padNum d.day 2

/-- How Python integer arithmetic and comparisons read a stored value:
an `int` is itself, a `bool` is 0 or 1 (`bool` subclasses `int`);
a `str` or `None` raises `TypeError`, modelled as `Option.none`. -/
def asArithInt : Value → Option Int
  | Value.vint n => some n
  | Value.vbool b => some (if b then 1 else 0)
  | Value.vstr _ => Option.none
  | Value.vnone => Option.none

/-! ### The coordinator (`coordinator.py`) -/

/-- Source `SupplyManagerCoordinator.replace_item`: unknown id → log error, no-op;
otherwise read `stock_quantity` (default 0), set it to `max(0, stock - 1)`
and set `last_replacement_date` to today's ISO string.  `Option.none`
models the `TypeError` Python would raise in `max(0, current_stock - 1)`
when the stored stock is not an integer. -/
def replace_item (products : Products) (pid : String) (today : Date) :
    Option (Products × List Log) :=
  match dget? products pid with
  | Option.none =>
      some (products, [Log.logError ("Product " ++ pid ++ " not found")])
  | some product =>
    match asArithInt (dgetD product "stock_quantity" (Value.vint 0)) with
    | Option.none => Option.none
    | some current_stock =>
      let new_stock := max 0 (current_stock - 1)
      let product' :=
        dset (dset product "stock_quantity" (Value.vint new_stock))
          "last_replacement_date" (Value.vstr (Date.isoformat today))
      some (dset products pid product', [])

/-- Source `SupplyManagerCoordinator.add_stock`: unknown id → log error, no-op;
otherwise `stock_quantity = current + quantity`. -/
def add_stock (products : Products) (pid : String) (quantity : Int) :
    Option (Products × List Log) :=
  match dget? products pid with
  | Option.none =>
      some (products, [Log.logError ("Product " ++ pid ++ " not found")])
  | some product =>
    match asArithInt (dgetD product "stock_quantity" (Value.vint 0)) with
    | Option.none => Option.none
    | some current_stock =>
      some (dset products pid
        (dset product "stock_quantity" (Value.vint (current_stock + quantity))), [])

/-- Source `SupplyManagerCoordinator.remove_stock`: unknown id → log error, no-op;
otherwise `stock_quantity = max(0, current - quantity)`. -/
def remove_stock (products : Products) (pid : String) (quantity : Int) :
    Option (Products × List Log) :=
  match dget? products pid with
  | Option.none =>
      some (products, [Log.logError ("Product " ++ pid ++ " not found")])
  | some product =>
    match asArithInt (dgetD product "stock_quantity" (Value.vint 0)) with
    | Option.none => Option.none
    | some current_stock =>
      some (dset products pid
        (dset product "stock_quantity" (Value.vint (max 0 (current_stock - quantity)))), [])

/-- Source `SupplyManagerCoordinator.update_product`: unknown id → log error,
no-op; otherwise `self._products[product_id].update(updates)`.  Always
total: `dict.update` cannot raise on string-keyed dicts. -/
def update_product (products : Products) (pid : String) (updates : Record) :
    Products × List Log :=
  match dget? products pid with
  | Option.none =>
      (products, [Log.logError ("Product " ++ pid ++ " not found")])
  | some product => (dset products pid (dupdate product updates), [])

/-- Source `SupplyManagerCoordinator.add_product`:
`self._products[product_data[CONF_PRODUCT_ID]] = product_data`.
`Option.none` models the `KeyError` when `product_id` is absent; the host
schema types `product_id` as a string, so a non-string key falls outside
the string-keyed mapping we model and is also sent to `Option.none`. -/
def add_product (products : Products) (product_data : Record) :
    Option (Products × List Log) :=
  match dget? product_data "product_id" with
  | some (Value.vstr pid) => some (dset products pid product_data, [])
  | _ => Option.none

/-- Source `SupplyManagerCoordinator.remove_product`: delete the record if
present, else fall through silently (no log statement in the source). -/
def remove_product (products : Products) (pid : String) :
    Products × List Log :=
  if dcontains products pid then (derase products pid, []) else (products, [])

/-- Source `SupplyManagerReplaceButton.async_press` (`button.py`): read the
product's stock (`{}` then default 0 when the product or the key is
missing), refuse with a warning when `stock <= 0`, otherwise call
`coordinator.replace_item` and log at info level.  The third component
records whether `replace_item` was invoked. -/
def async_press (products : Products) (pid : String) (today : Date) :
    Option (Products × List Log × Bool) :=
  let product := dgetD products pid []
  match asArithInt (dgetD product "stock_quantity" (Value.vint 0)) with
  | Option.none => Option.none
  | some stock =>
    if stock ≤ 0 then
      some (products,
        [Log.logWarning ("Cannot replace item " ++ pid ++
          ": stock is 0. Please add stock first.")], false)
    else
      match replace_item products pid today with
      | Option.none => Option.none
      | some (products', logs) =>
        some (products',
          logs ++ [Log.logInfo ("Replaced item " ++ pid ++ ", new stock: " ++
            toString (stock - 1))], true)

/-- The keys of a dict, in insertion order. -/
def dkeys {α : Type} (d : Dict α) : List String := d.map Prod.fst

/-- A dict value has pairwise distinct keys (always true of an actual
Python dict; stated explicitly because `Dict` is a plain list). -/
def uniqueKeys {α : Type} (d : Dict α) : Prop := (dkeys d).Nodup

instance {α : Type} (d : Dict α) : Decidable (uniqueKeys d) := by
  unfold uniqueKeys; infer_instance

/-! ### Stock non-negativity invariant -/

/-- A record's `stock_quantity`, when stored as an integer, is
non-negative. -/
def recStockOK (rec : Record) : Bool :=
  match dget? rec "stock_quantity" with
  | some (Value.vint n) => decide (0 ≤ n)
  | _ => true

/-- Every record in the mapping satisfies `recStockOK`. -/
def stockNonneg (products : Products) : Bool :=
  products.all (fun kv => recStockOK kv.2)

/-- One call to a repository mutation verb, arguments included. -/
inductive RepoOp where
  | opReplaceItem (pid : String)
  | opAddStock (pid : String) (quantity : Int)
  | opRemoveStock (pid : String) (quantity : Int)
  | opUpdateProduct (pid : String) (updates : Record)
  | opAddProduct (data : Record)
  | opRemoveProduct (pid : String)
deriving DecidableEq

/-- Dispatch one repository call. -/
def applyOp (products : Products) (today : Date) :
    RepoOp → Option (Products × List Log)
  | RepoOp.opReplaceItem pid => replace_item products pid today
  | RepoOp.opAddStock pid q => add_stock products pid q
  | RepoOp.opRemoveStock pid q => remove_stock products pid q
  | RepoOp.opUpdateProduct pid u => some (update_product products pid u)
  | RepoOp.opAddProduct d => add_product products d
  | RepoOp.opRemoveProduct pid => some (remove_product products pid)

/-- A record entry the host schema admits: a `stock_quantity` binding must
carry a non-negative integer (the `update_product` service schema uses
`cv.positive_int`, the number entity clamps at `native_min_value = 0`,
and the config/options flows send `cv.positive_int` values or defaults). -/
def stockEntryOK (kv : String × Value) : Bool :=
  kv.1 != "stock_quantity" ||
    (match kv.2 with | Value.vint n => decide (0 ≤ n) | _ => false)

/-- Arguments the host schema admits for each verb: service quantities go
through `vol.Coerce(int)` plus `vol.Range(min=0)` (`cv.positive_int`),
`update_product` field dicts and `add_product` records carry non-negative
integer stocks, and `product_id` is a string. -/
def schemaAdmits : RepoOp → Bool
  | RepoOp.opReplaceItem _ => true
  | RepoOp.opAddStock _ q => decide (0 ≤ q)
  | RepoOp.opRemoveStock _ q => decide (0 ≤ q)
  | RepoOp.opUpdateProduct _ u => u.all stockEntryOK
  | RepoOp.opAddProduct d =>
      (match dget? d "product_id" with
       | some (Value.vstr _) => true
       | _ => false) && d.all stockEntryOK
  | RepoOp.opRemoveProduct _ => true

/-- Demo store for witnesses: one product with stock 2. -/
def demoPs : Products :=
  [("soap", [("product_id", Value.vstr "soap"),
             ("product_name", Value.vstr "Soap"),
             ("stock_quantity", Value.vint 2)])]

/-- A demo date. -/
def demoToday : Date := { year := 2024, month := 1, day := 15 }

/-! ### Reads used by the presentation layer (`sensor.py`) -/

/-- Source `SupplyManagerStockSensor.native_value`:
`self.product_data.get(CONF_STOCK_QUANTITY, 0)`, where `product_data` is
`coordinator.data.get(product_id, {})`. -/
def stock_native_value (products : Products) (pid : String) : Value :=
  dgetD (dgetD products pid []) "stock_quantity" (Value.vint 0)

/-- The `last_replacement_date` attribute read,
`self.product_data.get(CONF_LAST_REPLACEMENT_DATE)`. -/
def last_replacement_value (products : Products) (pid : String) : Option Value :=
  dget? (dgetD products pid []) "last_replacement_date"

/-- Demo store with stock 3 for the C3 example. -/
def demoPs3 : Products :=
  [("soap", [("product_id", Value.vstr "soap"),
             ("product_name", Value.vstr "Soap"),
             ("stock_quantity", Value.vint 3)])]

/-- Demo store with stock 0 for the C10 witness. -/
def demoPs0 : Products :=
  [("soap", [("product_id", Value.vstr "soap"),
             ("product_name", Value.vstr "Soap"),
             ("stock_quantity", Value.vint 0)])]

/-- The module-level constant names `const.py` defines. -/
def const_defined_names : List String :=
  ["DOMAIN", "CONF_PRODUCT_NAME", "CONF_STOCK_QUANTITY",
   "CONF_REPLACEMENT_INTERVAL_DAYS", "CONF_LAST_REPLACEMENT_DATE",
   "CONF_PRODUCT_ID", "CONF_ICON", "DEFAULT_STOCK_QUANTITY",
   "DEFAULT_REPLACEMENT_INTERVAL_DAYS", "DEFAULT_ICON", "UPDATE_INTERVAL",
   "SERVICE_REPLACE_ITEM", "SERVICE_ADD_STOCK", "SERVICE_REMOVE_STOCK",
   "SERVICE_UPDATE_PRODUCT", "SENSOR_TYPE_DAYS_UNTIL_REPLACEMENT",
   "SENSOR_TYPE_STOCK", "STORAGE_VERSION", "STORAGE_KEY",
   "ICON_CALENDAR", "ICON_CART", "ICON_PACKAGE"]

/-- The names `config_flow.py` imports `from .const`. -/
def config_flow_const_imports : List String :=
  ["CONF_ICON", "CONF_IS_CYCLICAL", "CONF_LAST_REPLACEMENT_DATE",
   "CONF_PRODUCT_ID", "CONF_PRODUCT_NAME", "CONF_REPLACEMENT_INTERVAL_DAYS",
   "CONF_STOCK_QUANTITY", "CONF_TRACK_STOCK", "DEFAULT_ICON",
   "DEFAULT_IS_CYCLICAL", "DEFAULT_REPLACEMENT_INTERVAL_DAYS",
   "DEFAULT_STOCK_QUANTITY", "DEFAULT_TRACK_STOCK", "DOMAIN"]

/-- The names `sensor.py` imports `from .const`. -/
def sensor_const_imports : List String :=
  ["CONF_IS_CYCLICAL", "CONF_LAST_REPLACEMENT_DATE", "CONF_PRODUCT_ID",
   "CONF_PRODUCT_NAME", "CONF_REPLACEMENT_INTERVAL_DAYS",
   "CONF_STOCK_QUANTITY", "DOMAIN", "ICON_CALENDAR", "ICON_PACKAGE",
   "SENSOR_TYPE_DAYS_UNTIL_REPLACEMENT", "SENSOR_TYPE_STOCK"]

/-- One stock-affecting call in a sequence of repository operations. -/
inductive StockOp where
  | sReplace (pid : String)
  | sAdd (pid : String) (quantity : Int)
  | sRemove (pid : String) (quantity : Int)
deriving DecidableEq

/-- Run one stock-affecting call, keeping only the mapping. -/
def applyStockOp (products : Products) (today : Date) :
    StockOp → Option Products
  | StockOp.sReplace pid => (replace_item products pid today).map Prod.fst
  | StockOp.sAdd pid q => (add_stock products pid q).map Prod.fst
  | StockOp.sRemove pid q => (remove_stock products pid q).map Prod.fst

/-- Run a sequence of stock-affecting calls in order. -/
def applyStockOps (products : Products) (today : Date) :
    List StockOp → Option Products
  | [] => some products
  | op :: rest =>
    match applyStockOp products today op with
    | Option.none => Option.none
    | some ps' => applyStockOps ps' today rest

/-- Every quantity in the sequence is a positive integer (the spec's
precondition on `add_stock`/`remove_stock` arguments). -/
def posQuantities (ops : List StockOp) : Bool :=
  ops.all (fun op => match op with
    | StockOp.sReplace _ => true
    | StockOp.sAdd _ q => decide (0 < q)
    | StockOp.sRemove _ q => decide (0 < q))

/-- The per-product invariant: when `pid`'s record stores an integer
`stock_quantity`, that integer is non-negative. -/
def productStockNonneg (products : Products) (pid : String) : Bool :=
  match dget? products pid with
  | Option.none => true
  | some rec => recStockOK rec

/-! ### Theorems -/

/-! ### Dictionary lemmas -/

theorem dget?_dset {α : Type} (d : Dict α) (k k' : String) (v : α) :
    dget? (dset d k v) k' = if k = k' then some v else dget? d k' := by
  induction d with
  | nil => simp [dset, dget?]
  | cons kv rest ih =>
    obtain ⟨k0, v0⟩ := kv
    by_cases h0 : k0 = k
    · subst h0
      by_cases h1 : k0 = k'
      · subst h1; simp [dset, dget?]
      · simp [dset, dget?, h1]
    · by_cases h1 : k0 = k'
      · subst h1
        have hk : ¬ k = k0 := fun h => h0 h.symm
        simp [dset, dget?, h0, hk]
      · simp [dset, dget?, h0, h1, ih]

theorem dget?_mem {α : Type} {d : Dict α} {k : String} {v : α}
    (h : dget? d k = some v) : (k, v) ∈ d := by
  induction d with
  | nil => simp [dget?] at h
  | cons kv rest ih =>
    obtain ⟨k0, v0⟩ := kv
    rw [dget?] at h
    by_cases h0 : k0 = k
    · subst h0
      simp at h
      subst h
      exact List.mem_cons_self _ _
    · simp [h0] at h
      exact List.mem_cons_of_mem _ (ih h)

theorem dget?_eq_none_of_not_mem {α : Type} {d : Dict α} {k : String}
    (h : ∀ p ∈ d, p.1 ≠ k) : dget? d k = Option.none := by
  induction d with
  | nil => rfl
  | cons kv rest ih =>
    rw [dget?]
    have hk : kv.1 ≠ k := h kv (List.mem_cons_self _ _)
    simp [hk]
    exact ih (fun p hp => h p (List.mem_cons_of_mem _ hp))

theorem dupdate_nil {α : Type} (d : Dict α) : dupdate d [] = d := rfl

theorem dupdate_cons {α : Type} (d : Dict α) (kv : String × α) (u : Dict α) :
    dupdate d (kv :: u) = dupdate (dset d kv.1 kv.2) u := rfl

/-- A key never assigned by `u` keeps its value across `d.update(u)`. -/
theorem dget?_dupdate_of_not_supplied {α : Type} (d u : Dict α) (k : String)
    (h : dget? u k = Option.none) : dget? (dupdate d u) k = dget? d k := by
  induction u generalizing d with
  | nil => rfl
  | cons kv rest ih =>
    obtain ⟨k0, v0⟩ := kv
    rw [dget?] at h
    by_cases h0 : k0 = k
    · simp [h0] at h
    · rw [dupdate_cons]
      rw [ih (dset d k0 v0) (by simpa [h0] using h)]
      simp [dget?_dset, h0]

/-- After `d.update(u)`, the value at any key comes either from a binding
of `u` or is the original value in `d`. -/
theorem dget?_dupdate_cases {α : Type} (d u : Dict α) (k : String) (v : α)
    (h : dget? (dupdate d u) k = some v) : (k, v) ∈ u ∨ dget? d k = some v := by
  induction u generalizing d with
  | nil => exact Or.inr h
  | cons kv rest ih =>
    obtain ⟨k0, v0⟩ := kv
    rw [dupdate_cons] at h
    rcases ih (dset d k0 v0) h with hmem | hbase
    · exact Or.inl (List.mem_cons_of_mem _ hmem)
    · rw [dget?_dset] at hbase
      by_cases h0 : k0 = k
      · subst h0
        simp at hbase
        subst hbase
        exact Or.inl (List.mem_cons_self _ _)
      · simp [h0] at hbase
        exact Or.inr hbase

/-- A key assigned by a duplicate-free `u` ends with `u`'s value after
`d.update(u)`. -/
theorem dget?_dupdate_of_supplied {α : Type} (d u : Dict α) (k : String) (v : α)
    (hu : uniqueKeys u) (h : dget? u k = some v) :
    dget? (dupdate d u) k = some v := by
  induction u generalizing d with
  | nil => simp [dget?] at h
  | cons kv rest ih =>
    obtain ⟨k0, v0⟩ := kv
    have hu' : uniqueKeys rest := (List.nodup_cons.mp hu).2
    have hnotin : k0 ∉ dkeys rest := (List.nodup_cons.mp hu).1
    rw [dget?] at h
    rw [dupdate_cons]
    by_cases h0 : k0 = k
    · subst h0
      simp at h
      subst h
      rw [dget?_dupdate_of_not_supplied _ _ _
        (dget?_eq_none_of_not_mem (fun p hp hpk => hnotin (by
          rw [← hpk]; exact List.mem_map_of_mem Prod.fst hp)))]
      simp [dget?_dset]
    · simp [h0] at h
      exact ih (dset d k0 v0) hu' h

/-- Lemma: `dset` keeps every entry satisfying a predicate on values when the new
value satisfies it too. -/
theorem all_dset {α : Type} (p : α → Bool) (d : Dict α) (k : String) (v : α)
    (hd : d.all (fun kv => p kv.2) = true) (hv : p v = true) :
    (dset d k v).all (fun kv => p kv.2) = true := by
  induction d with
  | nil => simp [dset, hv]
  | cons kv rest ih =>
    obtain ⟨k0, v0⟩ := kv
    simp at hd
    by_cases h0 : k0 = k
    · simp [dset, h0, hv]
      exact hd.2
    · simp [dset, h0, hd.1]
      simpa using ih (by simp; exact hd.2)

/-- Lemma: `derase` keeps every entry satisfying a predicate on values. -/
theorem all_derase {α : Type} (p : α → Bool) (d : Dict α) (k : String)
    (hd : d.all (fun kv => p kv.2) = true) :
    (derase d k).all (fun kv => p kv.2) = true := by
  induction d with
  | nil => simp [derase]
  | cons kv rest ih =>
    obtain ⟨k0, v0⟩ := kv
    simp at hd
    by_cases h0 : k0 = k
    · simp [derase, h0]
      exact hd.2
    · simp [derase, h0, hd.1]
      simpa using ih (by simp; exact hd.2)

theorem recStockOK_dset_stock (rec : Record) (m : Int) (hm : 0 ≤ m) :
    recStockOK (dset rec "stock_quantity" (Value.vint m)) = true := by
  simp [recStockOK, dget?_dset, hm]

theorem recStockOK_dset_other (rec : Record) (k : String) (v : Value)
    (hk : k ≠ "stock_quantity") :
    recStockOK (dset rec k v) = recStockOK rec := by
  simp [recStockOK, dget?_dset, hk]

/-- The `current_stock` the mutators read off a `recStockOK` record is
non-negative (missing key defaults to 0, a stored `bool` reads as 0/1). -/
theorem current_stock_nonneg (rec : Record) (c : Int)
    (hrec : recStockOK rec = true)
    (hc : asArithInt (dgetD rec "stock_quantity" (Value.vint 0)) = some c) :
    0 ≤ c := by
  unfold recStockOK at hrec
  unfold dgetD at hc
  cases hdg : dget? rec "stock_quantity" with
  | none => simp [hdg, asArithInt] at hc; omega
  | some v =>
    rw [hdg] at hrec hc
    cases v with
    | vint n => simp at hrec; simp [asArithInt] at hc; omega
    | vstr s => simp [asArithInt] at hc
    | vbool b => simp [asArithInt] at hc; cases b <;> simp at hc <;> omega
    | vnone => simp [asArithInt] at hc

/-- A record all of whose entries pass the schema check satisfies
`recStockOK`. -/
theorem recStockOK_of_entries (d : Record) (hd : d.all stockEntryOK = true) :
    recStockOK d = true := by
  unfold recStockOK
  cases hdg : dget? d "stock_quantity" with
  | none => rfl
  | some v =>
    have hmem := dget?_mem hdg
    have := (List.all_eq_true.mp hd) _ hmem
    unfold stockEntryOK at this
    simp at this
    cases v with
    | vint n => simpa using this
    | vstr s => simp at this
    | vbool b => simp at this
    | vnone => simp at this

/-- Merging schema-admitted updates into a `recStockOK` record keeps
`recStockOK`. -/
theorem recStockOK_dupdate (rec u : Record) (hrec : recStockOK rec = true)
    (hu : u.all stockEntryOK = true) : recStockOK (dupdate rec u) = true := by
  unfold recStockOK
  cases hdg : dget? (dupdate rec u) "stock_quantity" with
  | none => rfl
  | some v =>
    rcases dget?_dupdate_cases rec u _ _ hdg with hmem | hbase
    · have := (List.all_eq_true.mp hu) _ hmem
      unfold stockEntryOK at this
      simp at this
      cases v with
      | vint n => simpa using this
      | vstr s => simp at this
      | vbool b => simp at this
      | vnone => simp at this
    · unfold recStockOK at hrec
      rw [hbase] at hrec
      exact hrec

/-- C1: every repository verb (`replace_item`, `add_stock`, `remove_stock`,
`update_product`, `add_product`, `remove_product`), called with any
arguments the host schema admits, preserves the invariant that every
product record's stored integer `stock_quantity` is non-negative; in
particular `update_product` with a fields dict containing a
`stock_quantity` key preserves `stock_quantity >= 0`. -/
theorem C1_stock_invariant (ps : Products) (today : Date) (op : RepoOp)
    (res : Products × List Log)
    (hadm : schemaAdmits op = true)
    (hps : stockNonneg ps = true)
    (happ : applyOp ps today op = some res) :
    stockNonneg res.1 = true := by
  cases op with
  | opReplaceItem pid =>
    simp only [applyOp] at happ
    cases hdg : dget? ps pid with
    | none =>
      simp [replace_item, hdg] at happ
      subst happ
      exact hps
    | some product =>
      cases hc : asArithInt (dgetD product "stock_quantity" (Value.vint 0)) with
      | none => simp [replace_item, hdg, hc] at happ
      | some cur =>
        simp [replace_item, hdg, hc] at happ
        subst happ
        have h1 : recStockOK (dset
            (dset product "stock_quantity" (Value.vint (max 0 (cur - 1))))
            "last_replacement_date" (Value.vstr (Date.isoformat today))) = true := by
          rw [recStockOK_dset_other _ _ _ (by decide)]
          exact recStockOK_dset_stock _ _ (le_max_left 0 _)
        exact all_dset _ ps pid _ hps h1
  | opAddStock pid q =>
    simp only [applyOp] at happ
    unfold schemaAdmits at hadm
    simp at hadm
    cases hdg : dget? ps pid with
    | none =>
      simp [add_stock, hdg] at happ
      subst happ
      exact hps
    | some product =>
      cases hc : asArithInt (dgetD product "stock_quantity" (Value.vint 0)) with
      | none => simp [add_stock, hdg, hc] at happ
      | some cur =>
        simp [add_stock, hdg, hc] at happ
        subst happ
        have hrec : recStockOK product = true :=
          (List.all_eq_true.mp hps) _ (dget?_mem hdg)
        have hcur := current_stock_nonneg product cur hrec hc
        exact all_dset _ ps pid _ hps
          (recStockOK_dset_stock _ _ (by omega))
  | opRemoveStock pid q =>
    simp only [applyOp] at happ
    cases hdg : dget? ps pid with
    | none =>
      simp [remove_stock, hdg] at happ
      subst happ
      exact hps
    | some product =>
      cases hc : asArithInt (dgetD product "stock_quantity" (Value.vint 0)) with
      | none => simp [remove_stock, hdg, hc] at happ
      | some cur =>
        simp [remove_stock, hdg, hc] at happ
        subst happ
        exact all_dset _ ps pid _ hps
          (recStockOK_dset_stock _ _ (le_max_left 0 _))
  | opUpdateProduct pid u =>
    simp only [applyOp] at happ
    unfold schemaAdmits at hadm
    cases hdg : dget? ps pid with
    | none =>
      simp [update_product, hdg] at happ
      subst happ
      exact hps
    | some product =>
      simp [update_product, hdg] at happ
      subst happ
      have hrec : recStockOK product = true :=
        (List.all_eq_true.mp hps) _ (dget?_mem hdg)
      exact all_dset _ ps pid _ hps (recStockOK_dupdate _ _ hrec hadm)
  | opAddProduct d =>
    simp only [applyOp] at happ
    simp only [schemaAdmits] at hadm
    cases hdg : dget? d "product_id" with
    | none => simp [add_product, hdg] at happ
    | some v =>
      cases v with
      | vstr pid =>
        simp [add_product, hdg] at happ
        subst happ
        rw [hdg] at hadm
        simp only [Bool.and_eq_true] at hadm
        exact all_dset _ ps pid _ hps (recStockOK_of_entries d hadm.2)
      | vint n => simp [add_product, hdg] at happ
      | vbool b => simp [add_product, hdg] at happ
      | vnone => simp [add_product, hdg] at happ
  | opRemoveProduct pid =>
    simp only [applyOp] at happ
    by_cases hcont : dcontains ps pid = true
    · simp [remove_product, hcont] at happ
      subst happ
      exact all_derase _ _ _ hps
    · simp [remove_product, hcont] at happ
      subst happ
      exact hps

/-- Witness for C1: `update_product` on the demo store with a fields dict
setting `stock_quantity` to 5 keeps the invariant. -/
theorem C1_stock_invariant_witness :
    schemaAdmits (RepoOp.opUpdateProduct "soap"
        [("stock_quantity", Value.vint 5)]) = true ∧
    stockNonneg demoPs = true ∧
    applyOp demoPs demoToday (RepoOp.opUpdateProduct "soap"
        [("stock_quantity", Value.vint 5)]) =
      some (update_product demoPs "soap" [("stock_quantity", Value.vint 5)]) ∧
    stockNonneg (update_product demoPs "soap"
        [("stock_quantity", Value.vint 5)]).1 = true :=
  ⟨by decide, by decide, by decide,
    C1_stock_invariant demoPs demoToday
      (RepoOp.opUpdateProduct "soap" [("stock_quantity", Value.vint 5)])
      (update_product demoPs "soap" [("stock_quantity", Value.vint 5)])
      (by decide) (by decide) (by decide)⟩

/-- C2: for a product present with integer stock `s >= 0` and positive
integer `q`, `remove_stock` succeeds, stores `max(0, s - q)` as the
product's stock, and a subsequent stock read returns exactly that value. -/
theorem C2_remove_stock (ps : Products) (pid : String) (rec : Record)
    (s q : Int)
    (hrec : dget? ps pid = some rec)
    (hs : dget? rec "stock_quantity" = some (Value.vint s))
    (hs0 : 0 ≤ s) (hq : 0 < q) :
    remove_stock ps pid q =
      some (dset ps pid
        (dset rec "stock_quantity" (Value.vint (max 0 (s - q)))), []) ∧
    stock_native_value
      (dset ps pid (dset rec "stock_quantity" (Value.vint (max 0 (s - q)))))
      pid = Value.vint (max 0 (s - q)) := by
  constructor
  · simp [remove_stock, hrec, dgetD, hs, asArithInt]
  · simp [stock_native_value, dgetD, dget?_dset]

/-- Witness for C2: removing 5 from stock 2 leaves `max(0, 2 - 5) = 0`. -/
theorem C2_remove_stock_witness :
    dget? demoPs "soap" = some (dgetD demoPs "soap" []) ∧
    remove_stock demoPs "soap" 5 =
      some (dset demoPs "soap"
        (dset (dgetD demoPs "soap" []) "stock_quantity" (Value.vint 0)), []) ∧
    stock_native_value
      (dset demoPs "soap"
        (dset (dgetD demoPs "soap" []) "stock_quantity" (Value.vint 0)))
      "soap" = Value.vint 0 :=
  ⟨by decide,
    (C2_remove_stock demoPs "soap" (dgetD demoPs "soap" []) 2 5
      (by decide) (by decide) (by decide) (by decide)).1,
    (C2_remove_stock demoPs "soap" (dgetD demoPs "soap" []) 2 5
      (by decide) (by decide) (by decide) (by decide)).2⟩

/-- C3: for any product present with integer stock `s` (including 0),
`replace_item` succeeds unconditionally, stores `max(0, s - 1)` as the
stock and today's ISO date as `last_replacement_date`, and subsequent
reads return those values. -/
theorem C3_replace_item (ps : Products) (pid : String) (rec : Record)
    (s : Int) (today : Date)
    (hrec : dget? ps pid = some rec)
    (hs : dget? rec "stock_quantity" = some (Value.vint s)) :
    replace_item ps pid today =
      some (dset ps pid
        (dset (dset rec "stock_quantity" (Value.vint (max 0 (s - 1))))
          "last_replacement_date" (Value.vstr (Date.isoformat today))), []) ∧
    stock_native_value
      (dset ps pid
        (dset (dset rec "stock_quantity" (Value.vint (max 0 (s - 1))))
          "last_replacement_date" (Value.vstr (Date.isoformat today))))
      pid = Value.vint (max 0 (s - 1)) ∧
    last_replacement_value
      (dset ps pid
        (dset (dset rec "stock_quantity" (Value.vint (max 0 (s - 1))))
          "last_replacement_date" (Value.vstr (Date.isoformat today))))
      pid = some (Value.vstr (Date.isoformat today)) := by
  refine ⟨?c3a, ?c3b, ?c3c⟩
  · simp [replace_item, hrec, dgetD, hs, asArithInt]
  · simp [stock_native_value, dgetD, dget?_dset]
  · simp [last_replacement_value, dgetD, dget?_dset]

/-- Witness for C3, the spec's example: a product with stock 3 ends with
stock 2 and `last_replacement_date` equal to today's ISO string. -/
theorem C3_replace_item_witness :
    stock_native_value
      (dset demoPs3 "soap"
        (dset (dset (dgetD demoPs3 "soap" []) "stock_quantity" (Value.vint 2))
          "last_replacement_date" (Value.vstr (Date.isoformat demoToday))))
      "soap" = Value.vint 2 ∧
    last_replacement_value
      (dset demoPs3 "soap"
        (dset (dset (dgetD demoPs3 "soap" []) "stock_quantity" (Value.vint 2))
          "last_replacement_date" (Value.vstr (Date.isoformat demoToday))))
      "soap" = some (Value.vstr "2024-01-15") ∧
    replace_item demoPs3 "soap" demoToday =
      some (dset demoPs3 "soap"
        (dset (dset (dgetD demoPs3 "soap" []) "stock_quantity" (Value.vint 2))
          "last_replacement_date" (Value.vstr (Date.isoformat demoToday))), []) := by
  have h := C3_replace_item demoPs3 "soap" (dgetD demoPs3 "soap" []) 3 demoToday
    (by decide) (by decide)
  exact ⟨by simpa using h.2.1, by
    have := h.2.2
    simpa using this, by simpa using h.1⟩

/-- C6: `update_product` on a present product merges exactly the supplied
keys into that product's record: supplied keys take the supplied value,
unsupplied fields of the record are untouched, and every other record in
the mapping is unchanged.  `uniqueKeys u` records that `u` embeds a Python
dict (which cannot carry a duplicate key). -/
theorem C6_update_product_frame (ps : Products) (pid : String) (rec u : Record)
    (hrec : dget? ps pid = some rec)
    (hu : uniqueKeys u) :
    (update_product ps pid u).2 = [] ∧
    dget? (update_product ps pid u).1 pid = some (dupdate rec u) ∧
    (∀ k v, dget? u k = some v → dget? (dupdate rec u) k = some v) ∧
    (∀ k, dget? u k = Option.none → dget? (dupdate rec u) k = dget? rec k) ∧
    (∀ pid2, pid2 ≠ pid →
      dget? (update_product ps pid u).1 pid2 = dget? ps pid2) := by
  refine ⟨?c6a, ?c6b, ?c6c, ?c6d, ?c6e⟩
  · simp [update_product, hrec]
  · simp [update_product, hrec, dget?_dset]
  · intro k v hk
    exact dget?_dupdate_of_supplied rec u k v hu hk
  · intro k hk
    exact dget?_dupdate_of_not_supplied rec u k hk
  · intro pid2 hne
    have hne' : ¬ pid = pid2 := fun h => hne h.symm
    simp [update_product, hrec, dget?_dset, hne']

/-- Witness for C6: `update_product` with `{"product_name": "X"}` on the
demo store changes only the name field; `stock_quantity` and the other
records are untouched. -/
theorem C6_update_product_frame_witness :
    (update_product demoPs "soap" [("product_name", Value.vstr "X")]).2 = [] ∧
    dget? (dupdate (dgetD demoPs "soap" [])
        [("product_name", Value.vstr "X")]) "product_name" =
      some (Value.vstr "X") ∧
    dget? (dupdate (dgetD demoPs "soap" [])
        [("product_name", Value.vstr "X")]) "stock_quantity" =
      dget? (dgetD demoPs "soap" []) "stock_quantity" ∧
    dget? (update_product demoPs "soap"
        [("product_name", Value.vstr "X")]).1 "towels" = dget? demoPs "towels" := by
  have h := C6_update_product_frame demoPs "soap" (dgetD demoPs "soap" [])
    [("product_name", Value.vstr "X")] (by decide) (by decide)
  exact ⟨h.1, h.2.2.1 "product_name" (Value.vstr "X") (by decide),
    h.2.2.2.1 "stock_quantity" (by decide),
    h.2.2.2.2 "towels" (by decide)⟩

/-- C5 counterexample: the claim says every mutation on an unknown
`product_id` is "observable only via a logged error", `remove_product`
included; but `remove_product` on an unknown id emits no log record at
all (its `if product_id in self._products` has no `else` branch), so no
error is reported to the caller. -/
theorem C5_counterexample :
    (remove_product demoPs "ghost").1 = demoPs ∧
    (remove_product demoPs "ghost").2 = [] := by decide

/-- C5 (amended): on an unknown `product_id`, `replace_item`, `add_stock`,
`remove_stock` and `update_product` leave the mapping unchanged, raise
nothing, and log the "Product ... not found" error; `remove_product` also
leaves the mapping unchanged and raises nothing but is silent (no log). -/
theorem C5_unknown_id_noop (ps : Products) (pid : String) (today : Date)
    (q : Int) (u : Record)
    (h : dget? ps pid = Option.none) :
    replace_item ps pid today =
      some (ps, [Log.logError ("Product " ++ pid ++ " not found")]) ∧
    add_stock ps pid q =
      some (ps, [Log.logError ("Product " ++ pid ++ " not found")]) ∧
    remove_stock ps pid q =
      some (ps, [Log.logError ("Product " ++ pid ++ " not found")]) ∧
    update_product ps pid u =
      (ps, [Log.logError ("Product " ++ pid ++ " not found")]) ∧
    remove_product ps pid = (ps, []) := by
  refine ⟨?c5a, ?c5b, ?c5c, ?c5d, ?c5e⟩
  · simp [replace_item, h]
  · simp [add_stock, h]
  · simp [remove_stock, h]
  · simp [update_product, h]
  · simp [remove_product, dcontains, h]

/-- Witness for C5: the unknown id "ghost" on the demo store. -/
theorem C5_unknown_id_noop_witness :
    dget? demoPs "ghost" = Option.none ∧
    replace_item demoPs "ghost" demoToday =
      some (demoPs, [Log.logError "Product ghost not found"]) ∧
    update_product demoPs "ghost" [("product_name", Value.vstr "X")] =
      (demoPs, [Log.logError "Product ghost not found"]) ∧
    remove_product demoPs "ghost" = (demoPs, []) := by
  have h := C5_unknown_id_noop demoPs "ghost" demoToday 1
    [("product_name", Value.vstr "X")] (by decide)
  exact ⟨by decide, by simpa using h.1, by simpa using h.2.2.2.1,
    h.2.2.2.2⟩

/-- C8: `add_stock(id, q)` followed by `remove_stock(id, q)` restores the
original integer stock `s >= 0`, and this restoration holds exactly when
`q <= s + q` (the clamp `max(0, (s + q) - q)` is not triggered) — a
condition that is always true here. -/
theorem C8_add_remove_roundtrip (ps : Products) (pid : String) (rec : Record)
    (s q : Int)
    (hrec : dget? ps pid = some rec)
    (hs : dget? rec "stock_quantity" = some (Value.vint s))
    (hs0 : 0 ≤ s) (hq : 0 < q) :
    add_stock ps pid q =
      some (dset ps pid (dset rec "stock_quantity" (Value.vint (s + q))), []) ∧
    remove_stock (dset ps pid (dset rec "stock_quantity" (Value.vint (s + q))))
        pid q =
      some (dset (dset ps pid (dset rec "stock_quantity" (Value.vint (s + q))))
        pid (dset (dset rec "stock_quantity" (Value.vint (s + q)))
          "stock_quantity" (Value.vint (max 0 (s + q - q)))), []) ∧
    (stock_native_value
        (dset (dset ps pid (dset rec "stock_quantity" (Value.vint (s + q))))
          pid (dset (dset rec "stock_quantity" (Value.vint (s + q)))
            "stock_quantity" (Value.vint (max 0 (s + q - q))))) pid =
        Value.vint s ↔ q ≤ s + q) := by
  refine ⟨?c8a, ?c8b, ?c8c⟩
  · simp [add_stock, hrec, dgetD, hs, asArithInt]
  · simp [remove_stock, dget?_dset, dgetD, asArithInt]
  · have hv : max 0 (s + q - q) = s := by omega
    simp [stock_native_value, dgetD, dget?_dset, hv]

/-- Witness for C8: stock 2, add 5, remove 5 — back to 2, and
`5 <= 2 + 5`. -/
theorem C8_add_remove_roundtrip_witness :
    add_stock demoPs "soap" 5 =
      some (dset demoPs "soap"
        (dset (dgetD demoPs "soap" []) "stock_quantity" (Value.vint 7)), []) ∧
    stock_native_value
      (dset (dset demoPs "soap"
          (dset (dgetD demoPs "soap" []) "stock_quantity" (Value.vint 7)))
        "soap" (dset (dset (dgetD demoPs "soap" []) "stock_quantity"
            (Value.vint 7)) "stock_quantity" (Value.vint 2)))
      "soap" = Value.vint 2 := by
  have h := C8_add_remove_roundtrip demoPs "soap" (dgetD demoPs "soap" []) 2 5
    (by decide) (by decide) (by decide) (by decide)
  refine ⟨by simpa using h.1, ?c8w⟩
  have h3 := h.2.2.mpr (by omega)
  simpa using h3

/-- C10: when a product's stored integer stock is `<= 0`, pressing the
replace button returns after logging a warning: `replace_item` is not
invoked (flag `false`), the mapping — the product's `stock_quantity` and
`last_replacement_date` included — is untouched. -/
theorem C10_button_refuses_at_zero (ps : Products) (pid : String)
    (rec : Record) (s : Int) (today : Date)
    (hrec : dget? ps pid = some rec)
    (hs : dget? rec "stock_quantity" = some (Value.vint s))
    (hzero : s ≤ 0) :
    async_press ps pid today =
      some (ps, [Log.logWarning ("Cannot replace item " ++ pid ++
        ": stock is 0. Please add stock first.")], false) := by
  simp [async_press, dgetD, hrec, hs, asArithInt, hzero]

/-- Witness for C10: a product at stock 0; the press is a refused no-op. -/
theorem C10_button_refuses_at_zero_witness :
    dget? demoPs0 "soap" = some (dgetD demoPs0 "soap" []) ∧
    async_press demoPs0 "soap" demoToday =
      some (demoPs0,
        [Log.logWarning "Cannot replace item soap: stock is 0. Please add stock first."],
        false) := by
  have h := C10_button_refuses_at_zero demoPs0 "soap" (dgetD demoPs0 "soap" [])
    0 demoToday (by decide) (by decide) (by decide)
  exact ⟨by decide, by simpa using h⟩

/-- C9: `config_flow.py` and `sensor.py` import `CONF_IS_CYCLICAL`,
`CONF_TRACK_STOCK`, `DEFAULT_IS_CYCLICAL` and `DEFAULT_TRACK_STOCK` from
`.const`, but `const.py` defines none of them, so the imports do not
resolve (the claim that every imported constant is defined fails). -/
theorem C9_const_missing :
    const_defined_names.contains "CONF_IS_CYCLICAL" = false ∧
    const_defined_names.contains "CONF_TRACK_STOCK" = false ∧
    const_defined_names.contains "DEFAULT_IS_CYCLICAL" = false ∧
    const_defined_names.contains "DEFAULT_TRACK_STOCK" = false ∧
    config_flow_const_imports.all
      (fun n => const_defined_names.contains n) = false ∧
    sensor_const_imports.all
      (fun n => const_defined_names.contains n) = false := by decide

theorem productStockNonneg_of_get (ps : Products) (pid : String)
    (rec : Record) (h : dget? ps pid = some rec)
    (hps : productStockNonneg ps pid = true) : recStockOK rec = true := by
  unfold productStockNonneg at hps
  rw [h] at hps
  exact hps

/-- One positive-quantity stock call keeps `pid`'s stored stock
non-negative. -/
theorem stockOp_preserves (ps ps' : Products) (today : Date) (op : StockOp)
    (pid : String)
    (hq : posQuantities [op] = true)
    (hps : productStockNonneg ps pid = true)
    (happ : applyStockOp ps today op = some ps') :
    productStockNonneg ps' pid = true := by
  cases op with
  | sReplace pid2 =>
    simp only [applyStockOp] at happ
    cases hdg : dget? ps pid2 with
    | none =>
      simp [replace_item, hdg] at happ
      subst happ
      exact hps
    | some product =>
      cases hc : asArithInt (dgetD product "stock_quantity" (Value.vint 0)) with
      | none => simp [replace_item, hdg, hc] at happ
      | some cur =>
        simp [replace_item, hdg, hc] at happ
        subst happ
        unfold productStockNonneg
        rw [dget?_dset]
        by_cases he : pid2 = pid
        · simp [he]
          rw [recStockOK_dset_other _ _ _ (by decide)]
          exact recStockOK_dset_stock _ _ (le_max_left 0 _)
        · simp [he]
          unfold productStockNonneg at hps
          exact hps
  | sAdd pid2 q =>
    simp only [applyStockOp] at happ
    unfold posQuantities at hq
    simp at hq
    cases hdg : dget? ps pid2 with
    | none =>
      simp [add_stock, hdg] at happ
      subst happ
      exact hps
    | some product =>
      cases hc : asArithInt (dgetD product "stock_quantity" (Value.vint 0)) with
      | none => simp [add_stock, hdg, hc] at happ
      | some cur =>
        simp [add_stock, hdg, hc] at happ
        subst happ
        unfold productStockNonneg
        rw [dget?_dset]
        by_cases he : pid2 = pid
        · simp [he]
          subst he
          have hrec := productStockNonneg_of_get ps pid2 product hdg hps
          have hcur := current_stock_nonneg product cur hrec hc
          exact recStockOK_dset_stock _ _ (by omega)
        · simp [he]
          unfold productStockNonneg at hps
          exact hps
  | sRemove pid2 q =>
    simp only [applyStockOp] at happ
    cases hdg : dget? ps pid2 with
    | none =>
      simp [remove_stock, hdg] at happ
      subst happ
      exact hps
    | some product =>
      cases hc : asArithInt (dgetD product "stock_quantity" (Value.vint 0)) with
      | none => simp [remove_stock, hdg, hc] at happ
      | some cur =>
        simp [remove_stock, hdg, hc] at happ
        subst happ
        unfold productStockNonneg
        rw [dget?_dset]
        by_cases he : pid2 = pid
        · simp [he]
          exact recStockOK_dset_stock _ _ (le_max_left 0 _)
        · simp [he]
          unfold productStockNonneg at hps
          exact hps

theorem applyStockOps_preserves (today : Date) (pid : String) :
    ∀ (pre : List StockOp) (ps psMid : Products),
    posQuantities pre = true →
    productStockNonneg ps pid = true →
    applyStockOps ps today pre = some psMid →
    productStockNonneg psMid pid = true := by
  intro pre
  induction pre with
  | nil =>
    intro ps psMid _ hps happ
    rw [applyStockOps] at happ
    cases happ
    exact hps
  | cons op rest ih =>
    intro ps psMid hq hps happ
    unfold posQuantities at hq
    simp at hq
    rw [applyStockOps] at happ
    cases hstep : applyStockOp ps today op with
    | none => rw [hstep] at happ; cases happ
    | some ps1 =>
      rw [hstep] at happ
      have h1 : posQuantities [op] = true := by
        unfold posQuantities; simp; exact hq.1
      have h2 : posQuantities rest = true := by
        unfold posQuantities
        exact List.all_eq_true.mpr (fun x hx => hq.2 x hx)
      exact ih ps1 psMid h2
        (stockOp_preserves ps ps1 today op pid h1 hps hstep) happ

/-- C7: starting from a product whose stored `stock_quantity` is a
non-negative integer, after any prefix of any finite sequence of
`add_stock`/`remove_stock` calls with positive quantities and
`replace_item` calls — so at every point in the sequence — that product's
stored integer stock is still non-negative. -/
theorem C7_stock_never_negative (ps : Products) (today : Date)
    (ops pre suf : List StockOp) (pid : String) (psMid : Products)
    (hq : posQuantities ops = true)
    (hps : productStockNonneg ps pid = true)
    (hsplit : ops = pre ++ suf)
    (happ : applyStockOps ps today pre = some psMid) :
    productStockNonneg psMid pid = true := by
  subst hsplit
  unfold posQuantities at hq
  rw [List.all_append] at hq
  simp only [Bool.and_eq_true] at hq
  exact applyStockOps_preserves today pid pre ps psMid hq.1 hps happ

/-- Witness for C7: add 5, replace, remove 4, starting from stock 2; after
the three-step prefix the stock is `max(0, 7 - 1 - 4) = 2 >= 0`. -/
theorem C7_stock_never_negative_witness :
    posQuantities [StockOp.sAdd "soap" 5, StockOp.sReplace "soap",
      StockOp.sRemove "soap" 4] = true ∧
    productStockNonneg demoPs "soap" = true ∧
    (applyStockOps demoPs demoToday
      [StockOp.sAdd "soap" 5, StockOp.sReplace "soap"]).isSome = true ∧
    productStockNonneg
      ((applyStockOps demoPs demoToday
        [StockOp.sAdd "soap" 5, StockOp.sReplace "soap"]).getD []) "soap" =
      true :=
  ⟨by decide, by decide, by decide,
    C7_stock_never_negative demoPs demoToday
      [StockOp.sAdd "soap" 5, StockOp.sReplace "soap",
        StockOp.sRemove "soap" 4]
      [StockOp.sAdd "soap" 5, StockOp.sReplace "soap"]
      [StockOp.sRemove "soap" 4] "soap"
      ((applyStockOps demoPs demoToday
        [StockOp.sAdd "soap" 5, StockOp.sReplace "soap"]).getD [])
      (by decide) (by decide) (by decide) (by decide)⟩

end SupplyManager

